import Mathlib

/-!
Shallow embedding of `src/design_patterns/behaviorals/mediator.py`.

The Python file defines a Mediator-pattern demo:
  * `Mediator` (abstract) with `notify(sender, event)`;
  * `ConcreteMediator` holding `_component1`/`_component2`, registering itself
    as their mediator on construction, and dispatching on the event label in
    `notify`;
  * `BaseComponent` with an optional `_mediator` reference (default `None`);
  * `Component1` with `do_a`/`do_b`, `Component2` with `do_c`/`do_d`, each
    printing a line and then calling `self.mediator.notify(self, label)`;
  * a `__main__` demo script that builds the graph and triggers `do_a`, `do_d`.

The embedding models the in-process object graph as a heap: association lists
from addresses (`Nat`) to component objects and mediator objects.  Standard
output is modelled as the list of lines printed, in order; `print(s)` appends
the line `s` and `print("\n", end="")` appends an empty line.  A Python
`AttributeError` (the only failure mode, reached by calling a method through a
`None` reference or a class that lacks the method) is modelled explicitly.
The mutually recursive calls between component actions and `notify` are given
a fuel parameter; fuel `6` covers the maximal call depth reached anywhere in
the demo, and `MError.outOfFuel` is an artifact of the embedding that no
theorem below ever reaches.
-/

/-- Runtime errors of the embedded program.  `attributeError msg` models a
Python `AttributeError`; `outOfFuel` is the fuel-exhaustion artifact of the
embedding, never reached with fuel at least the call depth. -/
inductive MError where
  | attributeError : String → MError
  | outOfFuel : MError
  deriving DecidableEq, Repr

/-- The two concrete component classes of the source file. -/
inductive ComponentClass where
  | component1
  | component2
  deriving DecidableEq, Repr

/-- A `BaseComponent` object: the class tag (used for method dispatch) and the
optional mediator reference `self._mediator`, `none` when never set
(the constructor default `mediator: Mediator = None`). -/
structure Component where
  cls : ComponentClass
  mediator : Option Nat
  deriving DecidableEq, Repr

/-- A `ConcreteMediator` object: its stored references `_component1` and
`_component2` (heap addresses of the two components). -/
structure MediatorObj where
  component1 : Nat
  component2 : Nat
  deriving DecidableEq, Repr

/-- The object heap: association lists from addresses to live component and
mediator objects (separate address spaces, as the two never mix). -/
structure Heap where
  comps : List (Nat × Component)
  meds : List (Nat × MediatorObj)
  deriving DecidableEq, Repr

def Heap.empty : Heap := ⟨[], []⟩

/-- Dereference a component address (first matching entry). -/
def lookupComp : List (Nat × Component) → Nat → Option Component
  | [], _ => none
  | (a, c) :: rest, x => if x = a then some c else lookupComp rest x

/-- Dereference a mediator address (first matching entry). -/
def lookupMed : List (Nat × MediatorObj) → Nat → Option MediatorObj
  | [], _ => none
  | (a, m) :: rest, x => if x = a then some m else lookupMed rest x

/-- The assignment `component.mediator = self` of `ConcreteMediator.__init__`
(via the `mediator` property setter): update the component stored at `addr`
to hold the mediator reference `med`. -/
def setMediator (l : List (Nat × Component)) (addr med : Nat) :
    List (Nat × Component) :=
  l.map fun p => (p.1, if p.1 = addr then { p.2 with mediator := some med } else p.2)

/-- The four component actions `do_a`, `do_b`, `do_c`, `do_d`. -/
inductive Act where
  | a
  | b
  | c
  | d
  deriving DecidableEq, Repr

deriving instance DecidableEq for Except

/-- What executing a statement yields: the lines printed (in order) and either
normal completion carrying the heap, or a raised error. -/
abbrev Result := List String × Except MError Heap

/-- `print` a line, then run the rest of the statement. -/
def withLine (s : String) (x : Result) : Result := (s :: x.1, x.2)

/-- Sequence two statements: the second runs only if the first completed
normally; printed lines accumulate in order; a raised error propagates. -/
def andThen (x : Result) (k : Heap → Result) : Result :=
  match x with
  | (t, Except.error e) => (t, Except.error e)
  | (t, Except.ok h) =>
    match k h with
    | (t2, r) => (t ++ t2, r)

mutual

/-- `ConcreteMediator.notify(self, sender, event)`: dispatch on the event
label.  `"A"`: print the banner, then `self._component2.do_c()`.  `"D"`: print
the banner, then `self._component1.do_b()`, then `self._component2.do_c()`.
Any other label: no reaction.  The `sender` argument is never inspected. -/
def notify : Nat → Heap → Nat → Nat → String → Result
  | 0, _, _, _, _ => ([], Except.error MError.outOfFuel)
  | Nat.succ f, h, medAddr, _sender, event =>
    match lookupMed h.meds medAddr with
    | none => ([], Except.error (MError.attributeError "dangling mediator reference"))
    | some m =>
      if event = "A" then
        withLine "Mediator reacts on A and triggers following operations:"
          (callMethod f h m.component2 Act.c)
      else if event = "D" then
        withLine "Mediator reacts on D and triggers following operations:"
          (andThen (callMethod f h m.component1 Act.b) fun h1 =>
            callMethod f h1 m.component2 Act.c)
      else ([], Except.ok h)
  termination_by structural fuel _ _ _ _ => fuel

/-- Python method dispatch for `obj.do_x()`: dereference the object, then run
the method of its class; a class without the method raises `AttributeError`
(`Component1` has only `do_a`/`do_b`, `Component2` only `do_c`/`do_d`). -/
def callMethod : Nat → Heap → Nat → Act → Result
  | 0, _, _, _ => ([], Except.error MError.outOfFuel)
  | Nat.succ f, h, self, act =>
    match lookupComp h.comps self with
    | none => ([], Except.error (MError.attributeError "dangling component reference"))
    | some obj =>
      match obj.cls, act with
      | ComponentClass.component1, Act.a => do_a f h self obj
      | ComponentClass.component1, Act.b => do_b f h self obj
      | ComponentClass.component2, Act.c => do_c f h self obj
      | ComponentClass.component2, Act.d => do_d f h self obj
      | ComponentClass.component1, _ =>
        ([], Except.error (MError.attributeError "Component1 object has no such attribute"))
      | ComponentClass.component2, _ =>
        ([], Except.error (MError.attributeError "Component2 object has no such attribute"))
  termination_by structural fuel _ _ _ => fuel

/-- `Component1.do_a`: print `Component 1 does A.`, then
`self.mediator.notify(self, "A")`; with `self._mediator is None` the attribute
access `.notify` on `None` raises `AttributeError` (after the print). -/
def do_a : Nat → Heap → Nat → Component → Result
  | 0, _, _, _ => ([], Except.error MError.outOfFuel)
  | Nat.succ f, h, self, obj =>
    withLine "Component 1 does A."
      (match obj.mediator with
       | none => ([], Except.error (MError.attributeError "NoneType object has no attribute notify"))
       | some m => notify f h m self "A")
  termination_by structural fuel _ _ _ => fuel

/-- `Component1.do_b`: print `Component 1 does B.`, then
`self.mediator.notify(self, "B")`. -/
def do_b : Nat → Heap → Nat → Component → Result
  | 0, _, _, _ => ([], Except.error MError.outOfFuel)
  | Nat.succ f, h, self, obj =>
    withLine "Component 1 does B."
      (match obj.mediator with
       | none => ([], Except.error (MError.attributeError "NoneType object has no attribute notify"))
       | some m => notify f h m self "B")
  termination_by structural fuel _ _ _ => fuel

/-- `Component2.do_c`: print `Component 2 does C.`, then
`self.mediator.notify(self, "C")`. -/
def do_c : Nat → Heap → Nat → Component → Result
  | 0, _, _, _ => ([], Except.error MError.outOfFuel)
  | Nat.succ f, h, self, obj =>
    withLine "Component 2 does C."
      (match obj.mediator with
       | none => ([], Except.error (MError.attributeError "NoneType object has no attribute notify"))
       | some m => notify f h m self "C")
  termination_by structural fuel _ _ _ => fuel

/-- `Component2.do_d`: print `Component 2 does D.`, then
`self.mediator.notify(self, "D")`. -/
def do_d : Nat → Heap → Nat → Component → Result
  | 0, _, _, _ => ([], Except.error MError.outOfFuel)
  | Nat.succ f, h, self, obj =>
    withLine "Component 2 does D."
      (match obj.mediator with
       | none => ([], Except.error (MError.attributeError "NoneType object has no attribute notify"))
       | some m => notify f h m self "D")
  termination_by structural fuel _ _ _ => fuel

end

/-- `ConcreteMediator.__init__(self, component1, component2)`: store both
component references in the new mediator object at `medAddr`, and assign the
mediator into each component (`self._component1.mediator = self`, likewise for
`_component2`). -/
def ConcreteMediator.init (h : Heap) (medAddr c1 c2 : Nat) : Heap :=
  { comps := setMediator (setMediator h.comps c1 medAddr) c2 medAddr,
    meds := (medAddr, ⟨c1, c2⟩) :: h.meds }

/-- `Component1()` / `Component2()`: allocate a fresh component at `addr` with
the default mediator reference `None`. -/
def newComponent (h : Heap) (addr : Nat) (cls : ComponentClass) : Heap :=
  { h with comps := (addr, ⟨cls, none⟩) :: h.comps }

/-- The demo's construction sequence: `c1 = Component1()`, `c2 = Component2()`,
`mediator = ConcreteMediator(c1, c2)`. -/
def buildGraph (h : Heap) (c1 c2 m : Nat) : Heap :=
  ConcreteMediator.init
    (newComponent (newComponent h c1 ComponentClass.component1) c2 ComponentClass.component2)
    m c1 c2

/-- The heap after the demo's construction: component 1 at address 0,
component 2 at address 1, the mediator at (mediator-)address 0. -/
def demoHeap : Heap := buildGraph Heap.empty 0 1 0

/-- Process exit code: 0 on normal completion, nonzero on an uncaught error. -/
def exitCode : Except MError Heap → Nat
  | Except.ok _ => 0
  | Except.error _ => 1

/-- The `__main__` demo script: after constructing the graph, print the two
client banners (with a blank line between the scenarios, from
`print("\n", end="")`) and trigger `c1.do_a()` and `c2.do_d()`.  It takes no
arguments, mirroring the script's lack of flags and configuration.  Fuel 6
covers the demo's maximal call depth. -/
def runDemo : Result :=
  withLine "Client triggers operation A."
    (andThen (callMethod 6 demoHeap 0 Act.a) fun h1 =>
      withLine ""
        (withLine "Client triggers operation D." (callMethod 6 h1 1 Act.d)))

/-- A call a client can make on the object graph: a component method
invocation, or a direct `notify(sender, event)` on a mediator. -/
inductive Call where
  | method : Nat → Act → Call
  | notifyOn : Nat → Nat → String → Call
  deriving DecidableEq, Repr

/-- Execute one client call. -/
def runCall (fuel : Nat) (h : Heap) : Call → Result
  | Call.method addr act => callMethod fuel h addr act
  | Call.notifyOn m s e => notify fuel h m s e

/-- Execute a sequence of client calls, threading the heap. -/
def runSeq (fuel : Nat) : Heap → List Call → Result
  | h, [] => ([], Except.ok h)
  | h, c :: rest => andThen (runCall fuel h c) fun h1 => runSeq fuel h1 rest

/-- Modelled from the spec: the explicit, named error condition the spec asks
an implementation to raise for an action on an unattached component. -/
def specNamedError : MError :=
  MError.attributeError "component not attached to a mediator"

/-- The class on which each action is defined. -/
def actionClass : Act → ComponentClass
  | Act.a => ComponentClass.component1
  | Act.b => ComponentClass.component1
  | Act.c => ComponentClass.component2
  | Act.d => ComponentClass.component2

/-- The line printed by each action (its own observable effect). -/
def actionLine : Act → String
  | Act.a => "Component 1 does A."
  | Act.b => "Component 1 does B."
  | Act.c => "Component 2 does C."
  | Act.d => "Component 2 does D."

/-- The event label each action sends to the mediator. -/
def actionEvent : Act → String
  | Act.a => "A"
  | Act.b => "B"
  | Act.c => "C"
  | Act.d => "D"

/-! ### Helper lemmas -/

/-- Looking a component up after a `setMediator` update: at the updated address
the stored component carries the new mediator reference, elsewhere the lookup
is unchanged. -/
theorem setMediator_cons (k : Nat) (o : Component) (rest : List (Nat × Component))
    (a med : Nat) :
    setMediator ((k, o) :: rest) a med =
      (k, if k = a then { o with mediator := some med } else o) :: setMediator rest a med :=
  rfl

theorem lookupComp_setMediator (l : List (Nat × Component)) (a med x : Nat) :
    lookupComp (setMediator l a med) x =
      if x = a then (lookupComp l x).map (fun o => { o with mediator := some med })
      else lookupComp l x := by
  induction l with
  | nil => simp [setMediator, lookupComp]
  | cons p rest ih =>
    obtain ⟨k, o⟩ := p
    rw [setMediator_cons]
    by_cases hxk : x = k
    · by_cases hka : k = a
      · have hxa : x = a := hxk.trans hka
        simp [lookupComp, hxk, hka, hxa]
      · have hxa : ¬x = a := fun hxa => hka (hxk.symm.trans hxa)
        simp [lookupComp, hxk, hka, hxa]
    · simp only [lookupComp, if_neg hxk]
      exact ih

/-- If a sequenced statement completed normally, its first part completed
normally on some intermediate heap and its second part completed from there. -/
theorem andThen_snd_ok {x : Result} {k : Heap → Result} {h' : Heap}
    (hx : (andThen x k).2 = Except.ok h') :
    ∃ h1, x.2 = Except.ok h1 ∧ (k h1).2 = Except.ok h' := by
  obtain ⟨t, r⟩ := x
  cases r with
  | error e => simp [andThen] at hx
  | ok h => exact ⟨h, rfl, by simpa [andThen] using hx⟩

/-- None of the mutually recursive operations ever writes to the heap: normal
completion always returns the input heap. -/
theorem heap_preserved (fuel : Nat) :
    (∀ h ma s e h', (notify fuel h ma s e).2 = Except.ok h' → h' = h) ∧
    (∀ h a act h', (callMethod fuel h a act).2 = Except.ok h' → h' = h) ∧
    (∀ h a o h', (do_a fuel h a o).2 = Except.ok h' → h' = h) ∧
    (∀ h a o h', (do_b fuel h a o).2 = Except.ok h' → h' = h) ∧
    (∀ h a o h', (do_c fuel h a o).2 = Except.ok h' → h' = h) ∧
    (∀ h a o h', (do_d fuel h a o).2 = Except.ok h' → h' = h) := by
  induction fuel with
  | zero =>
    refine ⟨fun h ma s e h' heq => ?_, fun h a act h' heq => ?_, fun h a o h' heq => ?_,
      fun h a o h' heq => ?_, fun h a o h' heq => ?_, fun h a o h' heq => ?_⟩ <;>
      simp [notify, callMethod, do_a, do_b, do_c, do_d] at heq
  | succ f ih =>
    obtain ⟨ihN, ihM, ihA, ihB, ihC, ihD⟩ := ih
    refine ⟨?_, ?_, ?_, ?_, ?_, ?_⟩
    · intro h ma s e h' heq
      simp only [notify] at heq
      split at heq
      · simp at heq
      · split at heq
        · simp [withLine] at heq
          exact ihM _ _ Act.c h' heq
        · split at heq
          · simp [withLine] at heq
            obtain ⟨h1, hx, hk⟩ := andThen_snd_ok heq
            have e1 := ihM _ _ Act.b h1 hx
            subst e1
            exact ihM _ _ Act.c h' hk
          · simp at heq
            exact heq.symm
    · intro h a act h' heq
      simp only [callMethod] at heq
      cases hLC : lookupComp h.comps a with
      | none => rw [hLC] at heq; simp at heq
      | some obj =>
        rw [hLC] at heq
        obtain ⟨cls, med⟩ := obj
        cases cls <;> cases act <;>
          first
            | exact ihA h a ⟨_, med⟩ h' heq
            | exact ihB h a ⟨_, med⟩ h' heq
            | exact ihC h a ⟨_, med⟩ h' heq
            | exact ihD h a ⟨_, med⟩ h' heq
            | simp at heq
    · intro h a o h' heq
      obtain ⟨cls, med⟩ := o
      cases med with
      | none => simp [do_a, withLine] at heq
      | some m =>
        simp [do_a, withLine] at heq
        exact ihN h m a "A" h' heq
    · intro h a o h' heq
      obtain ⟨cls, med⟩ := o
      cases med with
      | none => simp [do_b, withLine] at heq
      | some m =>
        simp [do_b, withLine] at heq
        exact ihN h m a "B" h' heq
    · intro h a o h' heq
      obtain ⟨cls, med⟩ := o
      cases med with
      | none => simp [do_c, withLine] at heq
      | some m =>
        simp [do_c, withLine] at heq
        exact ihN h m a "C" h' heq
    · intro h a o h' heq
      obtain ⟨cls, med⟩ := o
      cases med with
      | none => simp [do_d, withLine] at heq
      | some m =>
        simp [do_d, withLine] at heq
        exact ihN h m a "D" h' heq

/-! ### Claim theorems -/

/-- Claim C1: the concrete mediator's `notify` implements exactly the fixed
dispatch table: on event `"A"` it reacts by invoking `do_c` on component 2; on
event `"D"` it invokes `do_b` on component 1 and then `do_c` on component 2,
in that order; on every other event label it performs no reaction at all.
Stated on any graph built by the demo's construction (for any sender and any
sufficient fuel). -/
theorem notify_dispatch_table (c1 c2 m : Nat) (hne : c1 ≠ c2) (f s : Nat) :
    notify (f + 4) (buildGraph Heap.empty c1 c2 m) m s "A" =
      (["Mediator reacts on A and triggers following operations:",
        "Component 2 does C."], Except.ok (buildGraph Heap.empty c1 c2 m)) ∧
    notify (f + 4) (buildGraph Heap.empty c1 c2 m) m s "D" =
      (["Mediator reacts on D and triggers following operations:",
        "Component 1 does B.", "Component 2 does C."],
        Except.ok (buildGraph Heap.empty c1 c2 m)) ∧
    ∀ e : String, e ≠ "A" → e ≠ "D" →
      notify (f + 4) (buildGraph Heap.empty c1 c2 m) m s e =
        ([], Except.ok (buildGraph Heap.empty c1 c2 m)) := by
  refine ⟨?_, ?_, fun e hA hD => ?_⟩
  · simp [notify, callMethod, do_b, do_c, buildGraph, ConcreteMediator.init, newComponent,
      Heap.empty, lookupMed, lookupComp, lookupComp_setMediator, withLine, andThen,
      hne, Ne.symm hne]
  · simp [notify, callMethod, do_b, do_c, buildGraph, ConcreteMediator.init, newComponent,
      Heap.empty, lookupMed, lookupComp, lookupComp_setMediator, withLine, andThen,
      hne, Ne.symm hne]
  · simp [notify, buildGraph, ConcreteMediator.init, newComponent, Heap.empty,
      lookupMed, hA, hD]

/-- Witness for C1 on the demo graph: a label outside {"A", "D"} produces no
reaction. -/
theorem notify_dispatch_table_witness :
    (0 : Nat) ≠ 1 ∧ "X" ≠ "A" ∧ "X" ≠ "D" ∧
      notify 4 demoHeap 0 5 "X" = ([], Except.ok demoHeap) :=
  ⟨by decide, by decide, by decide,
    (notify_dispatch_table 0 1 0 (by decide) 0 5).2.2 "X" (by decide) (by decide)⟩

/-- Claim C2: every component action, invoked on a component whose mediator is
attached, first produces the component's own output line and only then the
notification to the mediator (hence the own line strictly precedes every
effect of the mediator's reaction). -/
theorem effect_precedes_notify (f : Nat) (h : Heap) (addr m : Nat) (act : Act)
    (hc : lookupComp h.comps addr = some ⟨actionClass act, some m⟩) :
    callMethod (f + 2) h addr act =
      withLine (actionLine act) (notify f h m addr (actionEvent act)) := by
  cases act <;>
    simp [callMethod, do_a, do_b, do_c, do_d, hc, actionClass, actionLine, actionEvent,
      withLine]

/-- Witness for C2: action `do_a` on component 1 of the demo graph. -/
theorem effect_precedes_notify_witness :
    lookupComp demoHeap.comps 0 = some ⟨actionClass Act.a, some 0⟩ ∧
      callMethod 6 demoHeap 0 Act.a =
        withLine (actionLine Act.a) (notify 4 demoHeap 0 0 (actionEvent Act.a)) :=
  ⟨by decide, effect_precedes_notify 4 demoHeap 0 0 Act.a (by decide)⟩

/-- Claim C3: invoking `do_d` on component 2 of a constructed graph yields
exactly four output lines in order — component 2's effect for D, the
mediator's D banner, component 1's effect for B, component 2's effect for C —
and nothing else (the nested notifications "B" and "C" trigger no reaction),
completing normally. -/
theorem action_d_trace (c1 c2 m f : Nat) (hne : c1 ≠ c2) :
    callMethod (f + 6) (buildGraph Heap.empty c1 c2 m) c2 Act.d =
      (["Component 2 does D.",
        "Mediator reacts on D and triggers following operations:",
        "Component 1 does B.",
        "Component 2 does C."], Except.ok (buildGraph Heap.empty c1 c2 m)) := by
  simp [notify, callMethod, do_b, do_c, do_d, buildGraph, ConcreteMediator.init,
    newComponent, Heap.empty, lookupMed, lookupComp, lookupComp_setMediator, withLine,
    andThen, hne, Ne.symm hne]

/-- Witness for C3 on the demo graph. -/
theorem action_d_trace_witness :
    (0 : Nat) ≠ 1 ∧
      callMethod 6 demoHeap 1 Act.d =
        (["Component 2 does D.",
          "Mediator reacts on D and triggers following operations:",
          "Component 1 does B.",
          "Component 2 does C."], Except.ok demoHeap) :=
  ⟨by decide, action_d_trace 0 1 0 0 (by decide)⟩

/-- Claim C4: invoking `do_a` on component 1 of a constructed graph yields
exactly three output lines in order — component 1's effect for A, the
mediator's A banner, component 2's effect for C — and nothing else (the nested
notification "C" triggers no reaction), completing normally. -/
theorem action_a_trace (c1 c2 m f : Nat) (hne : c1 ≠ c2) :
    callMethod (f + 6) (buildGraph Heap.empty c1 c2 m) c1 Act.a =
      (["Component 1 does A.",
        "Mediator reacts on A and triggers following operations:",
        "Component 2 does C."], Except.ok (buildGraph Heap.empty c1 c2 m)) := by
  simp [notify, callMethod, do_a, do_c, buildGraph, ConcreteMediator.init,
    newComponent, Heap.empty, lookupMed, lookupComp, lookupComp_setMediator, withLine,
    andThen, hne, Ne.symm hne]

/-- Witness for C4 on the demo graph. -/
theorem action_a_trace_witness :
    (0 : Nat) ≠ 1 ∧
      callMethod 6 demoHeap 0 Act.a =
        (["Component 1 does A.",
          "Mediator reacts on A and triggers following operations:",
          "Component 2 does C."], Except.ok demoHeap) :=
  ⟨by decide, action_a_trace 0 1 0 0 (by decide)⟩

/-- Counterexample to claim C5 as stated: invoking `do_a` on a component whose
mediator reference was never set raises the plain undefined `AttributeError`
of dereferencing `None` — not the explicit, named error
`"component not attached to a mediator"` that the claim asserts. -/
theorem unattached_named_error_counterexample :
    callMethod 6 (newComponent Heap.empty 0 ComponentClass.component1) 0 Act.a =
      (["Component 1 does A."],
        Except.error (MError.attributeError "NoneType object has no attribute notify")) ∧
    (callMethod 6 (newComponent Heap.empty 0 ComponentClass.component1) 0 Act.a).2 ≠
      Except.error specNamedError := by
  decide

/-- Claim C5 (amended): for every component whose mediator reference was never
set, invoking any of its actions produces the component's own output line and
then raises the undefined `AttributeError` of calling `.notify` on `None` —
not a defined named error — with no further effects beyond the component's own
local effect. -/
theorem unattached_action_attribute_error (f : Nat) (h : Heap) (addr : Nat) (act : Act)
    (hc : lookupComp h.comps addr = some ⟨actionClass act, none⟩) :
    callMethod (f + 2) h addr act =
      ([actionLine act],
        Except.error (MError.attributeError "NoneType object has no attribute notify")) := by
  cases act <;>
    simp [callMethod, do_a, do_b, do_c, do_d, hc, actionClass, actionLine, withLine]

/-- Witness for the amended C5: `do_a` on a freshly constructed, unattached
component 1. -/
theorem unattached_action_attribute_error_witness :
    lookupComp (newComponent Heap.empty 0 ComponentClass.component1).comps 0 =
      some ⟨actionClass Act.a, none⟩ ∧
    callMethod 6 (newComponent Heap.empty 0 ComponentClass.component1) 0 Act.a =
      ([actionLine Act.a],
        Except.error (MError.attributeError "NoneType object has no attribute notify")) :=
  ⟨by decide,
    unattached_action_attribute_error 4 (newComponent Heap.empty 0 ComponentClass.component1)
      0 Act.a (by decide)⟩

/-- Claim C6: after `ConcreteMediator.__init__` runs on two pre-existing
components, the mediator object holds references to both components, and both
components' mediator references point at the new mediator. -/
theorem mediator_init_wiring (h : Heap) (m c1 c2 : Nat) (o1 o2 : Component)
    (h1 : lookupComp h.comps c1 = some o1) (h2 : lookupComp h.comps c2 = some o2) :
    lookupMed (ConcreteMediator.init h m c1 c2).meds m = some ⟨c1, c2⟩ ∧
    lookupComp (ConcreteMediator.init h m c1 c2).comps c1 =
      some { o1 with mediator := some m } ∧
    lookupComp (ConcreteMediator.init h m c1 c2).comps c2 =
      some { o2 with mediator := some m } := by
  refine ⟨by simp [ConcreteMediator.init, lookupMed], ?_, ?_⟩
  · by_cases hc : c1 = c2
    · subst hc
      rw [h1] at h2
      simp only [Option.some.injEq] at h2
      subst h2
      simp [ConcreteMediator.init, lookupComp_setMediator, h1]
    · simp [ConcreteMediator.init, lookupComp_setMediator, hc, h1]
  · by_cases hc : c2 = c1
    · rw [hc] at h2
      simp [ConcreteMediator.init, lookupComp_setMediator, hc, h2]
    · simp [ConcreteMediator.init, lookupComp_setMediator, hc, h2]

/-- Witness for C6: the demo's construction, component 1 at address 0 and
component 2 at address 1. -/
theorem mediator_init_wiring_witness :
    lookupComp (newComponent (newComponent Heap.empty 0 ComponentClass.component1) 1
        ComponentClass.component2).comps 0 = some ⟨ComponentClass.component1, none⟩ ∧
    lookupComp (newComponent (newComponent Heap.empty 0 ComponentClass.component1) 1
        ComponentClass.component2).comps 1 = some ⟨ComponentClass.component2, none⟩ ∧
    (lookupMed demoHeap.meds 0 = some ⟨0, 1⟩ ∧
      lookupComp demoHeap.comps 0 = some ⟨ComponentClass.component1, some 0⟩ ∧
      lookupComp demoHeap.comps 1 = some ⟨ComponentClass.component2, some 0⟩) :=
  ⟨by decide, by decide,
    mediator_init_wiring
      (newComponent (newComponent Heap.empty 0 ComponentClass.component1) 1
        ComponentClass.component2) 0 0 1
      ⟨ComponentClass.component1, none⟩ ⟨ComponentClass.component2, none⟩
      (by decide) (by decide)⟩

/-- Claim C8: the concrete mediator's reaction depends only on the event
label, never on the sender: two `notify` calls with the same label but
different senders yield identical results (on any heap, mediator and fuel). -/
theorem notify_ignores_sender (fuel : Nat) (h : Heap) (ma s1 s2 : Nat) (e : String) :
    notify fuel h ma s1 e = notify fuel h ma s2 e := by
  cases fuel <;> simp [notify]

/-- Claim C9: the `__main__` entry point runs exactly the fixed demonstration
script — construct both components and the mediator, trigger `do_a` on
component 1, then `do_d` on component 2 — printing exactly these lines in this
order and exiting with code 0 on normal completion.  `runDemo` takes no
arguments: there are no flags and no configuration. -/
theorem main_demo_script :
    runDemo =
      (["Client triggers operation A.",
        "Component 1 does A.",
        "Mediator reacts on A and triggers following operations:",
        "Component 2 does C.",
        "",
        "Client triggers operation D.",
        "Component 2 does D.",
        "Mediator reacts on D and triggers following operations:",
        "Component 1 does B.",
        "Component 2 does C."], Except.ok demoHeap) ∧
    exitCode runDemo.2 = 0 := by
  decide

/-- Claim C7: two independently constructed mediator/component graphs (with
distinct addresses) do not interfere: any action invoked on a component of one
graph prints exactly the lines that the same action prints on that graph in
isolation, and leaves the whole heap — in particular the other graph's
components and mediator — unchanged.  No action of the other graph's
components is ever invoked. -/
theorem graphs_noninterference (a1 a2 am b1 b2 bm f : Nat)
    (ha : a1 ≠ a2) (hb : b1 ≠ b2) (hba : b1 ≠ a1) (hba2 : b1 ≠ a2)
    (hb2a : b2 ≠ a1) (hb2a2 : b2 ≠ a2) (hm : am ≠ bm) :
    (∀ p ∈ [(a1, Act.a), (a1, Act.b), (a2, Act.c), (a2, Act.d)],
      callMethod (f + 6) (buildGraph (buildGraph Heap.empty a1 a2 am) b1 b2 bm) p.1 p.2 =
        ((callMethod (f + 6) (buildGraph Heap.empty a1 a2 am) p.1 p.2).1,
          Except.ok (buildGraph (buildGraph Heap.empty a1 a2 am) b1 b2 bm))) ∧
    (∀ p ∈ [(b1, Act.a), (b1, Act.b), (b2, Act.c), (b2, Act.d)],
      callMethod (f + 6) (buildGraph (buildGraph Heap.empty a1 a2 am) b1 b2 bm) p.1 p.2 =
        ((callMethod (f + 6) (buildGraph Heap.empty b1 b2 bm) p.1 p.2).1,
          Except.ok (buildGraph (buildGraph Heap.empty a1 a2 am) b1 b2 bm))) := by
  constructor <;>
    · intro p hp
      simp only [List.mem_cons, List.not_mem_nil, or_false] at hp
      rcases hp with rfl | rfl | rfl | rfl <;>
        simp [notify, callMethod, do_a, do_b, do_c, do_d, buildGraph,
          ConcreteMediator.init, newComponent, Heap.empty, lookupMed, lookupComp,
          lookupComp_setMediator, withLine, andThen, ha, hb, hba, hba2, hb2a, hb2a2, hm,
          Ne.symm ha, Ne.symm hb, Ne.symm hba, Ne.symm hba2, Ne.symm hb2a, Ne.symm hb2a2,
          Ne.symm hm]

/-- Witness for C7: the demo graph at component addresses 0/1 (mediator 0) and
a second graph at component addresses 2/3 (mediator 1); `do_a` on the first
graph's component 1. -/
theorem graphs_noninterference_witness :
    ((0 : Nat) ≠ 1 ∧ (2 : Nat) ≠ 3 ∧ (2 : Nat) ≠ 0 ∧ (2 : Nat) ≠ 1 ∧ (3 : Nat) ≠ 0 ∧
      (3 : Nat) ≠ 1 ∧ (0 : Nat) ≠ 1) ∧
    (0, Act.a) ∈ [(0, Act.a), (0, Act.b), (1, Act.c), (1, Act.d)] ∧
    callMethod 6 (buildGraph (buildGraph Heap.empty 0 1 0) 2 3 1) 0 Act.a =
      ((callMethod 6 (buildGraph Heap.empty 0 1 0) 0 Act.a).1,
        Except.ok (buildGraph (buildGraph Heap.empty 0 1 0) 2 3 1)) :=
  ⟨⟨by decide, by decide, by decide, by decide, by decide, by decide, by decide⟩,
    by decide,
    (graphs_noninterference 0 1 0 2 3 1 0 (by decide) (by decide) (by decide) (by decide)
      (by decide) (by decide) (by decide)).1 (0, Act.a) (by decide)⟩

/-- Claim C10: no sequence of client calls — component actions or direct
mediator notifications — mutates the object graph: whenever the sequence
completes normally, the final heap (hence every component's mediator reference
and the mediator's references to component 1 and component 2) is exactly the
initial one. -/
theorem object_graph_immutable (fuel : Nat) (h : Heap) (calls : List Call)
    (t : List String) (h' : Heap)
    (hrun : runSeq fuel h calls = (t, Except.ok h')) : h' = h := by
  induction calls generalizing h t with
  | nil =>
    simp [runSeq] at hrun
    exact hrun.2.symm
  | cons c rest ih =>
    simp only [runSeq] at hrun
    have h2 : (andThen (runCall fuel h c) fun h1 => runSeq fuel h1 rest).2 =
        Except.ok h' := by rw [hrun]
    obtain ⟨h1, hx, hk⟩ := andThen_snd_ok h2
    have e1 : h1 = h := by
      cases c with
      | method addr act => exact (heap_preserved fuel).2.1 h addr act h1 hx
      | notifyOn ma s e => exact (heap_preserved fuel).1 h ma s e h1 hx
    have hfull : runSeq fuel h1 rest = ((runSeq fuel h1 rest).1, Except.ok h') := by
      rw [← hk]
    exact (ih h1 (runSeq fuel h1 rest).1 hfull).trans e1

/-- Witness for C10: the demo's two actions plus a direct `notify` with label
"D", run on the demo graph, complete normally with the heap unchanged. -/
theorem object_graph_immutable_witness :
    runSeq 6 demoHeap [Call.method 0 Act.a, Call.notifyOn 0 0 "D", Call.method 1 Act.d] =
      (["Component 1 does A.",
        "Mediator reacts on A and triggers following operations:",
        "Component 2 does C.",
        "Mediator reacts on D and triggers following operations:",
        "Component 1 does B.",
        "Component 2 does C.",
        "Component 2 does D.",
        "Mediator reacts on D and triggers following operations:",
        "Component 1 does B.",
        "Component 2 does C."], Except.ok demoHeap) ∧
    demoHeap = demoHeap :=
  ⟨by decide,
    object_graph_immutable 6 demoHeap
      [Call.method 0 Act.a, Call.notifyOn 0 0 "D", Call.method 1 Act.d]
      ["Component 1 does A.",
        "Mediator reacts on A and triggers following operations:",
        "Component 2 does C.",
        "Mediator reacts on D and triggers following operations:",
        "Component 1 does B.",
        "Component 2 does C.",
        "Component 2 does D.",
        "Mediator reacts on D and triggers following operations:",
        "Component 1 does B.",
        "Component 2 does C."] demoHeap (by decide)⟩
